import Mathlib

/-!
Shallow embedding of the build orchestrator in `build.rs` of the
`rusty_ffmpeg_rockchip` crate, together with theorems settling the
specification claims about it.

Conventions of the embedding:
* Rust functions that can `panic!` / `.expect(...)` are modelled as
  `Option`/`Except`-returning Lean functions, `none`/`.error` standing for
  the fatal abort.
* The process environment is modelled as a function `String → Option String`.
* Paths are plain strings; `camino` path `join` on a relative component is
  string concatenation with a `/` separator (the build targets Linux).
* External processes (meson, cmake, ninja, make, pkg-config, bindgen) are
  opaque: where a claim depends on their result the result is a parameter.
-/

namespace RustyFFmpeg

/-- Rust `Utf8Path::join` with a relative right component. -/
def joinPath (base sub : String) : String := base ++ "/" ++ sub

/-- All the libs that FFmpeg has (static `LIBS` in `build.rs`). -/
def LIBS : List String :=
  [ "libavcodec",
    "libavdevice",
    "libavfilter",
    "libavformat",
    "libavutil",
    "libswresample",
    "libswscale" ]

/-- Whitelist of the headers bindings are generated for (static `HEADERS`
in `build.rs`, commented-out entries omitted exactly as in the source). -/
def HEADERS : List String :=
  [ "libavcodec/ac3_parser.h",
    "libavcodec/adts_parser.h",
    "libavcodec/avcodec.h",
    "libavcodec/avdct.h",
    "libavcodec/avfft.h",
    "libavcodec/bsf.h",
    "libavcodec/codec.h",
    "libavcodec/codec_desc.h",
    "libavcodec/codec_id.h",
    "libavcodec/codec_par.h",
    "libavcodec/defs.h",
    "libavcodec/dirac.h",
    "libavcodec/dv_profile.h",
    "libavcodec/jni.h",
    "libavcodec/mediacodec.h",
    "libavcodec/packet.h",
    "libavcodec/version.h",
    "libavcodec/version_major.h",
    "libavcodec/vorbis_parser.h",
    "libavdevice/avdevice.h",
    "libavdevice/version.h",
    "libavdevice/version_major.h",
    "libavfilter/avfilter.h",
    "libavfilter/buffersink.h",
    "libavfilter/buffersrc.h",
    "libavfilter/version.h",
    "libavfilter/version_major.h",
    "libavformat/avformat.h",
    "libavformat/avio.h",
    "libavformat/version.h",
    "libavformat/version_major.h",
    "libavutil/adler32.h",
    "libavutil/aes.h",
    "libavutil/aes_ctr.h",
    "libavutil/ambient_viewing_environment.h",
    "libavutil/attributes.h",
    "libavutil/audio_fifo.h",
    "libavutil/avassert.h",
    "libavutil/avconfig.h",
    "libavutil/avstring.h",
    "libavutil/avutil.h",
    "libavutil/base64.h",
    "libavutil/blowfish.h",
    "libavutil/bprint.h",
    "libavutil/bswap.h",
    "libavutil/buffer.h",
    "libavutil/camellia.h",
    "libavutil/cast5.h",
    "libavutil/channel_layout.h",
    "libavutil/common.h",
    "libavutil/cpu.h",
    "libavutil/crc.h",
    "libavutil/csp.h",
    "libavutil/des.h",
    "libavutil/detection_bbox.h",
    "libavutil/dict.h",
    "libavutil/display.h",
    "libavutil/dovi_meta.h",
    "libavutil/downmix_info.h",
    "libavutil/encryption_info.h",
    "libavutil/error.h",
    "libavutil/eval.h",
    "libavutil/executor.h",
    "libavutil/ffversion.h",
    "libavutil/fifo.h",
    "libavutil/file.h",
    "libavutil/film_grain_params.h",
    "libavutil/frame.h",
    "libavutil/hash.h",
    "libavutil/hdr_dynamic_metadata.h",
    "libavutil/hdr_dynamic_vivid_metadata.h",
    "libavutil/hmac.h",
    "libavutil/hwcontext.h",
    "libavutil/imgutils.h",
    "libavutil/intfloat.h",
    "libavutil/intreadwrite.h",
    "libavutil/lfg.h",
    "libavutil/log.h",
    "libavutil/lzo.h",
    "libavutil/macros.h",
    "libavutil/mastering_display_metadata.h",
    "libavutil/mathematics.h",
    "libavutil/md5.h",
    "libavutil/mem.h",
    "libavutil/motion_vector.h",
    "libavutil/murmur3.h",
    "libavutil/opt.h",
    "libavutil/parseutils.h",
    "libavutil/pixdesc.h",
    "libavutil/pixelutils.h",
    "libavutil/pixfmt.h",
    "libavutil/random_seed.h",
    "libavutil/rational.h",
    "libavutil/rc4.h",
    "libavutil/replaygain.h",
    "libavutil/ripemd.h",
    "libavutil/samplefmt.h",
    "libavutil/sha.h",
    "libavutil/sha512.h",
    "libavutil/spherical.h",
    "libavutil/stereo3d.h",
    "libavutil/tea.h",
    "libavutil/threadmessage.h",
    "libavutil/time.h",
    "libavutil/timecode.h",
    "libavutil/timestamp.h",
    "libavutil/tree.h",
    "libavutil/twofish.h",
    "libavutil/tx.h",
    "libavutil/uuid.h",
    "libavutil/version.h",
    "libavutil/video_enc_params.h",
    "libavutil/video_hint.h",
    "libavutil/xtea.h",
    "libswresample/swresample.h",
    "libswresample/version.h",
    "libswresample/version_major.h",
    "libswscale/swscale.h",
    "libswscale/version.h",
    "libswscale/version_major.h" ]

/-- Result of bindgen's `will_parse_macro` callback
(`bindgen::callbacks::MacroParsingBehavior`). -/
inductive MacroParsingBehavior where
  | Ignore
  | Default
  deriving DecidableEq, Repr

/-- The `FilterCargoCallbacks` struct of `build.rs`: a set of macro names to
suppress, modelled as a list of strings (the Rust `HashSet` is only ever
queried for membership). -/
structure FilterCargoCallbacks where
  emitted_macros : List String
  deriving DecidableEq, Repr

/-- Method `FilterCargoCallbacks::will_parse_macro`: names in the filter set
are `Ignore`d, every other name gets the `Default` behavior. -/
def FilterCargoCallbacks.willParseMacroOf (self : FilterCargoCallbacks)
    (name : String) : MacroParsingBehavior :=
  if name ∈ self.emitted_macros then
    MacroParsingBehavior.Ignore
  else
    MacroParsingBehavior.Default

/-- The concrete macro filter set built in `generate_bindings`
(the five floating-point classification macros of `math.h`). -/
def fpClassificationFilterSet : FilterCargoCallbacks :=
  ⟨[ "FP_NAN",
     "FP_INFINITE",
     "FP_ZERO",
     "FP_SUBNORMAL",
     "FP_NORMAL" ]⟩

/-- The `FFmpegLinkMode` enum of `build.rs`. -/
inductive FFmpegLinkMode where
  | Static
  | Dynamic
  deriving DecidableEq, Repr

/-- Method `FFmpegLinkMode::is_static` (`self == &Self::Static` via the
derived equality). -/
def FFmpegLinkMode.isStaticMode : FFmpegLinkMode → Bool
  | FFmpegLinkMode.Static => true
  | FFmpegLinkMode.Dynamic => false

/-- The `From<String> for FFmpegLinkMode` conversion; the Rust `panic!` on an
unrecognized value is modelled as `none`. -/
def FFmpegLinkMode.fromString (value : String) : Option FFmpegLinkMode :=
  if value = "static" then some FFmpegLinkMode.Static
  else if value = "dynamic" then some FFmpegLinkMode.Dynamic
  else none

/-- The `Display for FFmpegLinkMode` implementation: the string interpolated
into `cargo:rustc-link-lib={mode}={library_name}` directives. -/
def FFmpegLinkMode.display : FFmpegLinkMode → String
  | FFmpegLinkMode.Static => "static"
  | FFmpegLinkMode.Dynamic => "dylib"

/-- The `statik` argument computed in `linking_with_pkg_config_and_bindgen`:
`env_vars.ffmpeg_link_mode.map(FFmpegLinkMode::is_static).unwrap_or_default()`
(the Rust `bool` default is `false`). -/
def pkgConfigStatikArg (ffmpeg_link_mode : Option FFmpegLinkMode) : Bool :=
  (ffmpeg_link_mode.map FFmpegLinkMode.isStaticMode).getD false

/-- The `cpu_arch` computation at the top of `build_ffmpeg`: a two-arm Rust
`match` sending `aarch64` to `armv8-a` and anything else to itself. -/
def cpuArchOf (target_arch : String) : String :=
  if target_arch = "aarch64" then "armv8-a" else target_arch

/-- Rust `str::parse::<bool>`: exactly `true` and `false` parse. -/
def parseRustBool (s : String) : Option Bool :=
  if s = "true" then some true
  else if s = "false" then some false
  else none

/-- Rust `str::trim`: removes leading and trailing whitespace characters. -/
def rustTrim (s : String) : String :=
  String.mk
    (((s.data.dropWhile Char.isWhitespace).reverse.dropWhile
      Char.isWhitespace).reverse)

/-- The `ffmpeg_rockchip_mpp` field computation in `EnvVars::init`:
`env::var(..).map(|v| v.trim().parse().unwrap_or(false)).unwrap_or(false)`. -/
def ffmpegRockchipMppOf (v : Option String) : Bool :=
  (v.map (fun s => (parseRustBool (rustTrim s)).getD false)).getD false

/-- The `remove_verbatim` helper of `build.rs`: strips the four-character
Windows verbatim marker `\\?\` when the path starts with it. -/
def remove_verbatim (path : String) : String :=
  match path.data with
  | '\\' :: '\\' :: '?' :: '\\' :: rest => String.mk rest
  | _ => path

/-- Rust `str::split` at the space character: every separator occurrence
splits, consecutive separators yield empty pieces. Defined over the
character list of the string. -/
def splitCharList (sep : Char) : List Char → List (List Char)
  | [] => [[]]
  | c :: cs =>
    let rest := splitCharList sep cs
    if c = sep then [] :: rest
    else
      match rest with
      | [] => [[c]]
      | r :: rs => (c :: r) :: rs

/-- Rust `value.split(' ')` collected as a list of strings. -/
def rustSplitSpace (s : String) : List String :=
  (splitCharList ' ' s.data).map String.mk

/-- The `EnvVars` struct of `build.rs`. -/
structure EnvVars where
  target : String
  docs_rs : Option String
  out_dir : String
  num_jobs : String
  ffmpeg_configuration : List String
  ffmpeg_link_mode : Option FFmpegLinkMode
  ffmpeg_rockchip_mpp : Bool
  deriving DecidableEq, Repr

/-- The names `EnvVars::init` prints as `cargo:rerun-if-env-changed=`
directives, in source order. -/
def rerunIfEnvChangedNames : List String :=
  [ "DOCS_RS",
    "OUT_DIR",
    "FFMPEG_CONFIGURATION",
    "FFMPEG_LINK_MODE",
    "FFMPEG_ROCKCHIP_MPP" ]

/-- The names `EnvVars::init` reads from the environment, in source order. -/
def envVarsReadNames : List String :=
  [ "TARGET",
    "DOCS_RS",
    "OUT_DIR",
    "NUM_JOBS",
    "FFMPEG_CONFIGURATION",
    "FFMPEG_LINK_MODE",
    "FFMPEG_ROCKCHIP_MPP" ]

/-- The `ffmpeg_link_mode` field computation of `EnvVars::init`: an absent
variable is `None`, a present one goes through the `From<String>` conversion
whose `panic!` on bad text aborts the loader (outer `none`). -/
def linkModeFieldOf : Option String → Option (Option FFmpegLinkMode)
  | none => some none
  | some s => (FFmpegLinkMode.fromString s).map some

/-- `EnvVars::init` with the process environment abstracted as a function;
`none` models a `panic!`/`expect` abort (missing required variable or an
invalid link mode). -/
def EnvVars.init (env : String → Option String) : Option EnvVars :=
  match env "TARGET", env "OUT_DIR", env "NUM_JOBS",
      env "FFMPEG_CONFIGURATION", linkModeFieldOf (env "FFMPEG_LINK_MODE") with
  | some target, some out_dir, some num_jobs, some cfg, some link_mode =>
    some
      ⟨target,
       env "DOCS_RS",
       remove_verbatim out_dir,
       num_jobs,
       (rustSplitSpace cfg).filter (fun v => v ≠ ""),
       link_mode,
       ffmpegRockchipMppOf (env "FFMPEG_ROCKCHIP_MPP")⟩
  | _, _, _, _, _ => none

/-- pkgconfig directory of the meson-built `rockchip-librga` install prefix
under the build output directory. -/
def rockchipLibrgaPkgConfigPath (out_dir : String) : String :=
  joinPath (joinPath (joinPath (joinPath out_dir "rockchip-librga") "install") "lib") "pkgconfig"

/-- pkgconfig directory of the cmake-built `rockchip-mpp` install prefix
under the build output directory. -/
def rockchipMppPkgConfigPath (out_dir : String) : String :=
  joinPath (joinPath (joinPath (joinPath out_dir "rockchip-mpp") "install") "lib") "pkgconfig"

/-- pkgconfig directory of the primary FFmpeg install prefix under the build
output directory. -/
def ffmpegOwnPkgConfigPath (out_dir : String) : String :=
  joinPath (joinPath (joinPath (joinPath out_dir "ffmpeg") "install") "lib") "pkgconfig"

/-- The `ffmpeg_pkg_config_path` value built in `build_ffmpeg`: when the
hardware-acceleration toggle is on, the interpolation
`"{rockchip_mpp_pkg_config_path}:{rockchip_librga_pkg_config_path}"` — the
cmake-built mpp directory first, the meson-built librga directory second. -/
def auxPkgConfigChain (out_dir : String) (ffmpeg_rockchip_mpp : Bool) :
    Option String :=
  if ffmpeg_rockchip_mpp then
    some (rockchipMppPkgConfigPath out_dir ++ ":" ++ rockchipLibrgaPkgConfigPath out_dir)
  else
    none

/-- The `PKG_CONFIG_PATH` value placed in the environment of the primary
library's configure process: the pre-existing search path, then the
auxiliary chain. When the toggle is off the variable is left untouched
(`none`). -/
def configurePkgConfigPath (existing : String) (out_dir : String)
    (ffmpeg_rockchip_mpp : Bool) : Option String :=
  (auxPkgConfigChain out_dir ffmpeg_rockchip_mpp).map
    (fun p => existing ++ ":" ++ p)

/-- The pkgconfig search path returned from `build_ffmpeg` and used by the
later probing step: the auxiliary chain first when present, the primary
library's own pkgconfig directory appended last. -/
def buildFfmpegPkgConfigPath (out_dir : String) (ffmpeg_rockchip_mpp : Bool) :
    String :=
  match auxPkgConfigChain out_dir ffmpeg_rockchip_mpp with
  | some p => p ++ ":" ++ ffmpegOwnPkgConfigPath out_dir
  | none => ffmpegOwnPkgConfigPath out_dir

/-- A concrete environment providing the required loader inputs. -/
def sampleEnv : String → Option String := fun k =>
  if k = "TARGET" then some "aarch64-unknown-linux-gnu"
  else if k = "OUT_DIR" then some "out"
  else if k = "NUM_JOBS" then some "4"
  else if k = "FFMPEG_CONFIGURATION" then some ""
  else none

/-- `sampleEnv` with a different target triple and everything else equal. -/
def sampleEnvAltTarget : String → Option String := fun k =>
  if k = "TARGET" then some "x86_64-unknown-linux-gnu" else sampleEnv k

/-- `sampleEnv` with an extra entry under a name the loader never reads. -/
def sampleEnvAltUnread : String → Option String := fun k =>
  if k = "UNRELATED_VAR" then some "x" else sampleEnv k

/-- Result of a successful pkg-config probe of one library: the include
paths the probe reports, and the cargo linkage directives it prints when
`cargo_metadata` is enabled. -/
structure ProbeResult where
  include_paths : List String
  directives : List String
  deriving DecidableEq, Repr

/-- First pass of `linking_with_pkg_config`: the dry run with
`cargo_metadata(false)`, `env_metadata(false)` and all printing disabled, so
it emits nothing; returns the first library whose probe fails, if any
(the `?` propagation of the probe error). -/
def dryRunFirstFailure (probe : String → Option ProbeResult) :
    List String → Option String
  | [] => none
  | l :: ls =>
    match probe l with
    | none => some l
    | some _ => dryRunFirstFailure probe ls

/-- Second pass of `linking_with_pkg_config`: the real probes with cargo
metadata enabled. Returns the collected include paths (the Rust `HashSet`
accumulation modelled as list concatenation) paired with the directives
emitted along the way; a probe failure here is the
`panic!("{} not found!")`, after which earlier directives stay emitted. -/
def realLinkingPass (probe : String → Option ProbeResult) :
    List String → Except String (List String) × List String
  | [] => (Except.ok [], [])
  | l :: ls =>
    match probe l with
    | none => (Except.error (l ++ " not found!"), [])
    | some r =>
      match realLinkingPass probe ls with
      | (Except.ok paths, ds) =>
        (Except.ok (r.include_paths ++ paths), r.directives ++ ds)
      | (Except.error e, ds) => (Except.error e, r.directives ++ ds)

/-- `pkg_config_linking::linking_with_pkg_config`, with the external
pkg-config probe (at the fixed `statik` flag) abstracted as a function from
library name to optional probe result. The second component of the result is
the list of cargo linkage directives emitted to the build system. -/
def linking_with_pkg_config (probe : String → Option ProbeResult)
    (library_names : List String) :
    Except String (List String) × List String :=
  match dryRunFirstFailure probe library_names with
  | some l => (Except.error ("probe failed: " ++ l), [])
  | none => realLinkingPass probe library_names

/-- Outcome of `generate_bindings` up to the opaque bindgen builder: the
missing-header diagnostics printed and the header paths handed to the
builder fold. -/
structure GenerateBindingsRun where
  diagnostics : List String
  used_headers : List String
  deriving DecidableEq, Repr

/-- `generate_bindings`, with filesystem existence abstracted as a
predicate. The leading `panic!` when the include directory itself is missing
is the `.error` case; otherwise each whitelisted header is joined onto the
include directory, missing paths are reported and filtered out, and exactly
the surviving paths are folded into the bindgen builder. -/
def generate_bindings (pathExists : String → Bool)
    (ffmpeg_include_dir : String) (headers : List String) :
    Except String GenerateBindingsRun :=
  if !(pathExists ffmpeg_include_dir) then
    Except.error ("FFmpeg include dir: " ++ ffmpeg_include_dir ++ " does not exist")
  else
    let joined := headers.map (fun hd => joinPath ffmpeg_include_dir hd)
    Except.ok
      ⟨(joined.filter (fun p => !(pathExists p))).map
         (fun p => "Header path " ++ p ++ " not found."),
       joined.filter (fun p => pathExists p)⟩

end RustyFFmpeg

namespace RustyFFmpeg

/-- Claim C4: every macro name in the fixed filter set (the five
floating-point classification macros) gets the `Ignore` parsing behavior, and
every name outside the set gets the `Default` behavior. -/
theorem fp_macro_filter_ignore_iff (name : String) :
    (fpClassificationFilterSet.willParseMacroOf name = MacroParsingBehavior.Ignore
      ↔ name ∈ fpClassificationFilterSet.emitted_macros)
    ∧ (fpClassificationFilterSet.willParseMacroOf name = MacroParsingBehavior.Default
      ↔ name ∉ fpClassificationFilterSet.emitted_macros)
    ∧ fpClassificationFilterSet.emitted_macros =
        ["FP_NAN", "FP_INFINITE", "FP_ZERO", "FP_SUBNORMAL", "FP_NORMAL"] := by
  refine ⟨?_, ?_, rfl⟩ <;>
    by_cases h : name ∈ fpClassificationFilterSet.emitted_macros <;>
      simp [FilterCargoCallbacks.willParseMacroOf, h]

/-- Claim C5: parsing link-mode text maps `static` to `Static` (displayed as
the directive keyword `static`), `dynamic` to `Dynamic` (displayed as
`dylib`), and any other text to a fatal error (`none`), never a default. -/
theorem link_mode_parse_display (s : String)
    (hs : s ≠ "static") (hd : s ≠ "dynamic") :
    FFmpegLinkMode.fromString "static" = some FFmpegLinkMode.Static
    ∧ FFmpegLinkMode.Static.display = "static"
    ∧ FFmpegLinkMode.fromString "dynamic" = some FFmpegLinkMode.Dynamic
    ∧ FFmpegLinkMode.Dynamic.display = "dylib"
    ∧ FFmpegLinkMode.fromString s = none := by
  refine ⟨rfl, rfl, rfl, rfl, ?_⟩
  simp [FFmpegLinkMode.fromString, hs, hd]

/-- Witness for C5 at the concrete unrecognized text `shared`. -/
theorem link_mode_parse_display_witness :
    FFmpegLinkMode.fromString "static" = some FFmpegLinkMode.Static
    ∧ FFmpegLinkMode.Static.display = "static"
    ∧ FFmpegLinkMode.fromString "dynamic" = some FFmpegLinkMode.Dynamic
    ∧ FFmpegLinkMode.Dynamic.display = "dylib"
    ∧ FFmpegLinkMode.fromString "shared" = none :=
  link_mode_parse_display "shared" (by decide) (by decide)

/-- Claim C7: the CPU architecture name passed to the configure script is
`armv8-a` for an `aarch64` target and the unchanged architecture name for
every other target. -/
theorem cpu_arch_translation (arch : String) (h : arch ≠ "aarch64") :
    cpuArchOf "aarch64" = "armv8-a" ∧ cpuArchOf arch = arch := by
  refine ⟨rfl, ?_⟩
  simp [cpuArchOf, h]

/-- Witness for C7 at the concrete architecture `x86_64`. -/
theorem cpu_arch_translation_witness :
    cpuArchOf "aarch64" = "armv8-a" ∧ cpuArchOf "x86_64" = "x86_64" :=
  cpu_arch_translation "x86_64" (by decide)

/-- Claim C8: on non-Windows, with the link-mode input absent, the `statik`
flag handed to the pkg-config prober is `false` (dynamic probing). -/
theorem statik_flag_defaults_false :
    pkgConfigStatikArg none = false := rfl

/-- Claim C9: the hardware-acceleration toggle is `false` both when its
input is absent and when its trimmed text does not parse as a boolean; the
computation is total, so an unparseable value never aborts. -/
theorem rockchip_mpp_toggle_default (s : String)
    (h : parseRustBool (rustTrim s) = none) :
    ffmpegRockchipMppOf none = false ∧ ffmpegRockchipMppOf (some s) = false := by
  refine ⟨rfl, ?_⟩
  simp [ffmpegRockchipMppOf, h]

/-- Witness for C9 at the concrete unparseable text ` yes `. -/
theorem rockchip_mpp_toggle_default_witness :
    parseRustBool (rustTrim " yes ") = none
    ∧ (ffmpegRockchipMppOf none = false
        ∧ ffmpegRockchipMppOf (some " yes ") = false) :=
  ⟨by decide, rockchip_mpp_toggle_default " yes " (by decide)⟩

/-- Counterexample to claim C1 at the concrete output directory `out`: in
the chain built with the toggle on, the cmake-built rockchip-mpp pkgconfig
directory comes first and the meson-built rockchip-librga directory second —
not the claimed build order — and the value injected into the configure
environment carries only the two auxiliary directories (after the
pre-existing search path), not the primary library's own directory. -/
theorem pkg_config_chain_counterexample :
    buildFfmpegPkgConfigPath "out" true =
      rockchipMppPkgConfigPath "out" ++ ":" ++ rockchipLibrgaPkgConfigPath "out"
        ++ ":" ++ ffmpegOwnPkgConfigPath "out"
    ∧ buildFfmpegPkgConfigPath "out" true ≠
      rockchipLibrgaPkgConfigPath "out" ++ ":" ++ rockchipMppPkgConfigPath "out"
        ++ ":" ++ ffmpegOwnPkgConfigPath "out"
    ∧ configurePkgConfigPath "" "out" true =
      some ("" ++ ":" ++ (rockchipMppPkgConfigPath "out" ++ ":"
        ++ rockchipLibrgaPkgConfigPath "out")) := by
  refine ⟨rfl, by decide, rfl⟩

/-- Claim C1 (amended): with the hardware-acceleration toggle on, the
auxiliary pkgconfig chain lists the cmake-built media-processing-platform
library's directory first and the meson-built graphics library's directory
second; the configure step receives the pre-existing search path followed by
exactly that auxiliary chain, and the primary library's own pkgconfig
directory is appended last only in the final chain returned for the
subsequent probing step. -/
theorem pkg_config_chain_amended (existing out_dir : String) :
    auxPkgConfigChain out_dir true =
      some (rockchipMppPkgConfigPath out_dir ++ ":"
        ++ rockchipLibrgaPkgConfigPath out_dir)
    ∧ configurePkgConfigPath existing out_dir true =
      some (existing ++ ":" ++ (rockchipMppPkgConfigPath out_dir ++ ":"
        ++ rockchipLibrgaPkgConfigPath out_dir))
    ∧ buildFfmpegPkgConfigPath out_dir true =
      (rockchipMppPkgConfigPath out_dir ++ ":"
        ++ rockchipLibrgaPkgConfigPath out_dir) ++ ":"
        ++ ffmpegOwnPkgConfigPath out_dir
    ∧ auxPkgConfigChain out_dir false = none
    ∧ buildFfmpegPkgConfigPath out_dir false = ffmpegOwnPkgConfigPath out_dir :=
  ⟨rfl, rfl, rfl, rfl, rfl⟩

/-- Counterexample to claim C2: `TARGET` is a configuration input the loader
reads — two environments agreeing on every registered name but differing in
`TARGET` produce different configurations — yet `TARGET` is not among the
names registered for change invalidation. -/
theorem rerun_registration_counterexample :
    "TARGET" ∈ envVarsReadNames
    ∧ "TARGET" ∉ rerunIfEnvChangedNames
    ∧ rerunIfEnvChangedNames.map sampleEnv =
        rerunIfEnvChangedNames.map sampleEnvAltTarget
    ∧ EnvVars.init sampleEnv ≠ EnvVars.init sampleEnvAltTarget := by
  refine ⟨by decide, by decide, by decide, by decide⟩

/-- Claim C2 (amended): the loader registers exactly the five names DOCS_RS,
OUT_DIR, FFMPEG_CONFIGURATION, FFMPEG_LINK_MODE and FFMPEG_ROCKCHIP_MPP for
change invalidation — each of them an input it reads — while the inputs
TARGET and NUM_JOBS are read without being registered; the loader's result
depends only on the read inputs. -/
theorem rerun_registration_amended (env env2 : String → Option String)
    (h : ∀ k ∈ envVarsReadNames, env k = env2 k) :
    EnvVars.init env = EnvVars.init env2
    ∧ rerunIfEnvChangedNames =
        ["DOCS_RS", "OUT_DIR", "FFMPEG_CONFIGURATION", "FFMPEG_LINK_MODE",
         "FFMPEG_ROCKCHIP_MPP"]
    ∧ (∀ k ∈ rerunIfEnvChangedNames, k ∈ envVarsReadNames)
    ∧ "TARGET" ∉ rerunIfEnvChangedNames
    ∧ "NUM_JOBS" ∉ rerunIfEnvChangedNames := by
  have hT := h "TARGET" (by decide)
  have hD := h "DOCS_RS" (by decide)
  have hO := h "OUT_DIR" (by decide)
  have hN := h "NUM_JOBS" (by decide)
  have hC := h "FFMPEG_CONFIGURATION" (by decide)
  have hL := h "FFMPEG_LINK_MODE" (by decide)
  have hR := h "FFMPEG_ROCKCHIP_MPP" (by decide)
  refine ⟨?_, rfl, by decide, by decide, by decide⟩
  unfold EnvVars.init
  rw [hT, hD, hO, hN, hC, hL, hR]

/-- Witness for C2 (amended) on two concrete environments that agree on all
read inputs but differ on an unread name. -/
theorem rerun_registration_amended_witness :
    (∀ k ∈ envVarsReadNames, sampleEnv k = sampleEnvAltUnread k)
    ∧ (EnvVars.init sampleEnv = EnvVars.init sampleEnvAltUnread
       ∧ rerunIfEnvChangedNames =
           ["DOCS_RS", "OUT_DIR", "FFMPEG_CONFIGURATION", "FFMPEG_LINK_MODE",
            "FFMPEG_ROCKCHIP_MPP"]
       ∧ (∀ k ∈ rerunIfEnvChangedNames, k ∈ envVarsReadNames)
       ∧ "TARGET" ∉ rerunIfEnvChangedNames
       ∧ "NUM_JOBS" ∉ rerunIfEnvChangedNames) :=
  ⟨by decide,
   rerun_registration_amended sampleEnv sampleEnvAltUnread (by decide)⟩

/-- The dry run reports no failure exactly when every library in the list
probes successfully. -/
lemma dryRunFirstFailure_eq_none_iff (probe : String → Option ProbeResult)
    (ls : List String) :
    dryRunFirstFailure probe ls = none ↔ ∀ l ∈ ls, probe l ≠ none := by
  induction ls with
  | nil => simp [dryRunFirstFailure]
  | cons l ls ih =>
    cases hp : probe l <;> simp [dryRunFirstFailure, hp, ih]

/-- Claim C3: probing the seven FFmpeg component libraries is atomic — if
any one of them fails its first-pass probe, `linking_with_pkg_config`
returns an error and the list of emitted linkage directives is empty. -/
theorem probe_atomicity (probe : String → Option ProbeResult)
    (h : ∃ l ∈ LIBS, probe l = none) :
    LIBS.length = 7
    ∧ (∃ e, (linking_with_pkg_config probe LIBS).fst = Except.error e)
    ∧ (linking_with_pkg_config probe LIBS).snd = [] := by
  refine ⟨rfl, ?_, ?_⟩ <;>
  · cases hd : dryRunFirstFailure probe LIBS with
    | none =>
      obtain ⟨l, hmem, hnone⟩ := h
      exact absurd hnone ((dryRunFirstFailure_eq_none_iff probe LIBS).mp hd l hmem)
    | some l =>
      first
      | exact ⟨"probe failed: " ++ l, by simp [linking_with_pkg_config, hd]⟩
      | simp [linking_with_pkg_config, hd]

/-- Witness for C3 with the probe that fails on every library. -/
theorem probe_atomicity_witness :
    (∃ l ∈ LIBS, (fun _ => (none : Option ProbeResult)) l = none)
    ∧ (LIBS.length = 7
       ∧ (∃ e, (linking_with_pkg_config (fun _ => none) LIBS).fst
            = Except.error e)
       ∧ (linking_with_pkg_config (fun _ => none) LIBS).snd = []) :=
  ⟨⟨"libavcodec", by decide, rfl⟩,
   probe_atomicity (fun _ => none) ⟨"libavcodec", by decide, rfl⟩⟩

/-- Claim C6: with an existing include directory, every whitelisted header
missing on disk is excluded from the set handed to bindgen and gets a
diagnostic naming its joined path, while generation succeeds over exactly
the whitelisted headers that do exist — a missing whitelisted header alone
never makes generation fail. -/
theorem missing_headers_skipped (pathExists : String → Bool)
    (dir hdr : String)
    (hdir : pathExists dir = true)
    (hmem : hdr ∈ HEADERS)
    (hmiss : pathExists (joinPath dir hdr) = false) :
    ∃ r, generate_bindings pathExists dir HEADERS = Except.ok r
      ∧ r.used_headers =
          (HEADERS.map (joinPath dir)).filter (fun p => pathExists p)
      ∧ joinPath dir hdr ∉ r.used_headers
      ∧ ("Header path " ++ joinPath dir hdr ++ " not found.") ∈ r.diagnostics := by
  refine
    ⟨⟨((HEADERS.map (fun hd => joinPath dir hd)).filter
          (fun p => !(pathExists p))).map
            (fun p => "Header path " ++ p ++ " not found."),
      (HEADERS.map (fun hd => joinPath dir hd)).filter (fun p => pathExists p)⟩,
     by simp [generate_bindings, hdir], rfl, ?_, ?_⟩
  · intro hin
    have := (List.mem_filter.mp hin).2
    rw [hmiss] at this
    exact Bool.false_ne_true this
  · refine List.mem_map_of_mem _ (List.mem_filter.mpr ⟨?_, ?_⟩)
    · exact List.mem_map_of_mem _ hmem
    · simp [hmiss]

/-- Witness for C6: the include dir `inc` exists, the whitelisted header
`libavcodec/ac3_parser.h` does not, everything else does. -/
theorem missing_headers_skipped_witness :
    ((fun s => !(s = "inc/libavcodec/ac3_parser.h" : Bool)) "inc" = true
     ∧ "libavcodec/ac3_parser.h" ∈ HEADERS
     ∧ (fun s => !(s = "inc/libavcodec/ac3_parser.h" : Bool))
         (joinPath "inc" "libavcodec/ac3_parser.h") = false)
    ∧ ∃ r, generate_bindings
          (fun s => !(s = "inc/libavcodec/ac3_parser.h" : Bool)) "inc" HEADERS
          = Except.ok r
        ∧ r.used_headers = (HEADERS.map (joinPath "inc")).filter
            (fun p => !(p = "inc/libavcodec/ac3_parser.h" : Bool))
        ∧ joinPath "inc" "libavcodec/ac3_parser.h" ∉ r.used_headers
        ∧ ("Header path " ++ joinPath "inc" "libavcodec/ac3_parser.h"
            ++ " not found.") ∈ r.diagnostics :=
  ⟨⟨by decide, by decide, by decide⟩,
   missing_headers_skipped (fun s => !(s = "inc/libavcodec/ac3_parser.h" : Bool))
     "inc" "libavcodec/ac3_parser.h" (by decide) (by decide) (by decide)⟩

/-- Claim C10: when the include directory itself does not exist, binding
generation fails fatally before any header of the whitelist is considered. -/
theorem include_dir_missing_fatal (pathExists : String → Bool)
    (dir : String) (headers : List String)
    (h : pathExists dir = false) :
    generate_bindings pathExists dir headers =
      Except.error ("FFmpeg include dir: " ++ dir ++ " does not exist") := by
  simp [generate_bindings, h]

/-- Witness for C10 with a filesystem on which nothing exists. -/
theorem include_dir_missing_fatal_witness :
    ((fun _ => false) : String → Bool) "inc" = false
    ∧ generate_bindings (fun _ => false) "inc" HEADERS =
        Except.error ("FFmpeg include dir: " ++ "inc" ++ " does not exist") :=
  ⟨rfl, include_dir_missing_fatal (fun _ => false) "inc" HEADERS rfl⟩

end RustyFFmpeg
